import Mathlib

/-!
Verification of the Global Solar Energy Simulation Framework core.

Shallow embedding of the techno-economic simulation core:
* `SolarTechnology` / `SolarTechModel` (src/modules/technological_evolution/solar_tech_model.py)
* `CostModel` (src/modules/economic_framework/cost_model.py)
* `GridModel` (src/modules/grid_integration/grid_model.py)
* `MarketSimulator.simulate_dispatch_for_year` (src/modules/economic_framework/market_model.py)
* the simple-payback block of `InvestmentDecisionModel.evaluate_project_attractiveness`
  (src/modules/decision_making/investment_decision_model.py)

Python floats are modelled as exact rationals (`ℚ`); Python's `round`
builtin is modelled as decimal round-half-even on rationals; `float('inf')`
is modelled by an explicit extended-value type; code that can raise a
Python exception is modelled with `Except`.
-/

namespace GSEF

/-- Python's `round` to an integer: round half to even (banker's rounding),
modelled exactly on rationals. -/
def roundHalfEven (x : ℚ) : ℤ :=
  let f := ⌊x⌋
  let frac := x - (f : ℚ)
  if frac < 1/2 then f
  else if 1/2 < frac then f + 1
  else if f % 2 = 0 then f else f + 1

/-- Python's `round(x, d)` for `d` decimal digits, on rationals. -/
def pyRound (d : ℕ) (x : ℚ) : ℚ := (roundHalfEven (x * 10 ^ d) : ℚ) / 10 ^ d

/-! ## Technological evolution: `SolarTechnology` and `SolarTechModel`
(src/modules/technological_evolution/solar_tech_model.py) -/

/-- A solar photovoltaic technology and its constructor parameters
(`SolarTechnology.__init__`, lines 5-20). -/
structure SolarTechnology where
  name : String
  base_efficiency : ℚ
  projected_efficiency_2035 : ℚ
  start_year : ℤ
  commercial_scale_year : ℤ
  degradation_rate_annual : ℚ := 1/200
  base_capex_usd_per_kw : ℚ := 1000
  annual_capex_reduction_rate : ℚ := 1/50

namespace SolarTechnology

/-- The derived attribute `self.annual_efficiency_improvement` set by
`SolarTechnology.__init__` (lines 22-30). -/
def annual_efficiency_improvement (t : SolarTechnology) : ℚ :=
  if 2035 < t.start_year then 0
  else if t.projected_efficiency_2035 ≤ t.base_efficiency ∨ t.start_year = 2035 then 0
  else (t.projected_efficiency_2035 - t.base_efficiency) / ((2035 - t.start_year : ℤ) : ℚ)

/-- The un-rounded efficiency computed by `get_params_for_year` (lines 34-42). -/
def rawEfficiency (t : SolarTechnology) (year : ℤ) : ℚ :=
  if year < t.start_year then t.base_efficiency
  else if 2035 ≤ year then t.projected_efficiency_2035
  else min (t.base_efficiency +
      t.annual_efficiency_improvement * ((year - t.start_year : ℤ) : ℚ))
    t.projected_efficiency_2035

/-- The un-rounded CAPEX computed by `get_params_for_year` (lines 44-50). -/
def rawCapex (t : SolarTechnology) (year : ℤ) : ℚ :=
  if year < t.start_year then t.base_capex_usd_per_kw
  else
    max (t.base_capex_usd_per_kw *
        (1 - t.annual_capex_reduction_rate) ^ (year - t.start_year).toNat)
      0

/-- The dictionary returned by `SolarTechnology.get_params_for_year` (lines 52-60). -/
structure TechParams where
  name : String
  year : ℤ
  efficiency : ℚ
  degradation_rate_annual : ℚ
  capex_usd_per_kw : ℚ
  is_commercially_available : Bool
  commercial_scale_year : ℤ

/-- `SolarTechnology.get_params_for_year` (lines 32-60): efficiency is rounded
to 4 decimal digits and CAPEX to 2, exactly as in the source. -/
def get_params_for_year (t : SolarTechnology) (year : ℤ) : TechParams :=
  { name := t.name
    year := year
    efficiency := pyRound 4 (t.rawEfficiency year)
    degradation_rate_annual := t.degradation_rate_annual
    capex_usd_per_kw := pyRound 2 (t.rawCapex year)
    is_commercially_available := decide (t.commercial_scale_year ≤ year)
    commercial_scale_year := t.commercial_scale_year }

end SolarTechnology

/-- Concrete technology refuting C3 as stated: its projected 2035 efficiency is
below its base efficiency, which the constructor allows. -/
def c3exA : SolarTechnology :=
  { name := "A", base_efficiency := 3/10, projected_efficiency_2035 := 1/5,
    start_year := 2030, commercial_scale_year := 2030 }

/-- Concrete technology refuting the unrounded efficiency bound of C3: its
projected 2035 efficiency has five decimal digits, so the 4-digit rounding in
`get_params_for_year` rounds the reported efficiency above it. -/
def c3exB : SolarTechnology :=
  { name := "B", base_efficiency := 1/10, projected_efficiency_2035 := 12355/100000,
    start_year := 2023, commercial_scale_year := 2023 }

/-- Concrete technology refuting C9 as stated: its annual CAPEX reduction rate
is 2 (200%), which the constructor allows, so `(1-rate)^k` alternates sign. -/
def c9exA : SolarTechnology :=
  { name := "C", base_efficiency := 1/5, projected_efficiency_2035 := 1/4,
    start_year := 2020, commercial_scale_year := 2020,
    base_capex_usd_per_kw := 1000, annual_capex_reduction_rate := 2 }

/-- Concrete technology refuting the non-negativity half of C9: its base CAPEX
is negative, which the constructor allows, and is reported as-is before the
start year. -/
def c9exB : SolarTechnology :=
  { name := "D", base_efficiency := 1/5, projected_efficiency_2035 := 1/4,
    start_year := 2020, commercial_scale_year := 2020,
    base_capex_usd_per_kw := -100, annual_capex_reduction_rate := 1/50 }

/-- `SolarTechModel` (solar_tech_model.py lines 65-91): a portfolio of
technologies keyed by name (a Python dict in insertion order). -/
structure SolarTechModel where
  technologies : List (String × SolarTechnology)

/-- `SolarTechModel.get_technology_details` (lines 75-80): `none` models the
`{'error': ...}` dictionary returned for an unknown technology. -/
def SolarTechModel.get_technology_details (stm : SolarTechModel) (tech_name : String)
    (year : ℤ) : Option SolarTechnology.TechParams :=
  match stm.technologies.lookup tech_name with
  | none => none
  | some t => some (t.get_params_for_year year)

/-! ## Economic framework: `CostModel`
(src/modules/economic_framework/cost_model.py) -/

/-- The keys of the `current_costs` dictionary relevant to the claims.  The
Python dictionary may hold further keys, but no operation of the model reads
or writes any other key. -/
inductive CostKey
  | module | bos | inverter | installation | opex | capex
deriving DecidableEq

/-- `CostModel.CAPEX_COMPONENT_KEYS` (cost_model.py line 20). -/
def CAPEX_COMPONENT_KEYS : List CostKey :=
  [CostKey.module, CostKey.bos, CostKey.inverter, CostKey.installation]

/-- The `current_costs` dictionary.  `none` models an absent key; the
`capex_per_kw` entry is a plain value because `__init__` always sets it via
`_recalculate_total_capex`. -/
structure Costs where
  module : Option ℚ
  bos : Option ℚ
  inverter : Option ℚ
  installation : Option ℚ
  opex : Option ℚ
  capex : ℚ
deriving DecidableEq

namespace Costs

/-- Dictionary read: `current_costs[k]` presence and value. -/
def get? (c : Costs) : CostKey → Option ℚ
  | .module => c.module
  | .bos => c.bos
  | .inverter => c.inverter
  | .installation => c.installation
  | .opex => c.opex
  | .capex => some c.capex

/-- Dictionary write: `current_costs[k] = v`. -/
def set (c : Costs) : CostKey → ℚ → Costs
  | .module, v => { c with module := some v }
  | .bos, v => { c with bos := some v }
  | .inverter, v => { c with inverter := some v }
  | .installation, v => { c with installation := some v }
  | .opex, v => { c with opex := some v }
  | .capex, v => { c with capex := v }

/-- `sum(current_costs.get(key, 0) for key in CAPEX_COMPONENT_KEYS)`. -/
def capexSum (c : Costs) : ℚ :=
  c.module.getD 0 + c.bos.getD 0 + c.inverter.getD 0 + c.installation.getD 0

end Costs

/-- `CostModel` state (cost_model.py lines 31-57). -/
structure CostModel where
  technology_name : String
  costs : Costs
  learning_rate : ℚ
  current_production_volume : ℚ
  initial_production_volume : ℚ
  snapshot : Costs
deriving DecidableEq

namespace CostModel

/-- `CostModel._recalculate_total_capex` (lines 59-65). -/
def recalcTotalCapex (c : Costs) : Costs := { c with capex := c.capexSum }

/-- `CostModel.__init__` (lines 31-57): copies the initial costs, recomputes
the total CAPEX from components, and snapshots the initial costs with the
recomputed total. -/
def init (technology_name : String) (initial_costs : Costs)
    (learning_rate : ℚ) (initial_production_volume : ℚ := 1) : CostModel :=
  let cur := recalcTotalCapex initial_costs
  { technology_name := technology_name
    costs := cur
    learning_rate := learning_rate
    current_production_volume := initial_production_volume
    initial_production_volume := initial_production_volume
    snapshot := { initial_costs with capex := cur.capex } }

/-- `CostModel.update_cost_component` (lines 67-75): updates the entry when the
key is present, then recomputes the total CAPEX only when the key is one of the
four CAPEX component keys. -/
def update_cost_component (m : CostModel) (component_name : CostKey)
    (new_value : ℚ) : CostModel :=
  if (m.costs.get? component_name).isSome then
    let c := m.costs.set component_name new_value
    if component_name ∈ CAPEX_COMPONENT_KEYS then { m with costs := recalcTotalCapex c }
    else { m with costs := c }
  else m

/-- One iteration of the `for item_key in self.CAPEX_COMPONENT_KEYS` loop of
`apply_learning_curve` (lines 90-98): the component is set to
`initial snapshot cost × factor` when the key is present in both the snapshot
and the current costs. -/
def learnStep (snap : Costs) (factor : ℚ) (c : Costs) (k : CostKey) : Costs :=
  match snap.get? k, c.get? k with
  | some s, some _ => c.set k (s * factor)
  | _, _ => c

/-- `CostModel.apply_learning_curve` (lines 77-104).  The transcendental
learning factor
`(cumulative_production_volume / initial_production_volume) ** (log(1 - learning_rate) / log 2)`
is abstracted as the argument `factor` (it depends only on the new cumulative
volume and the constructor parameters); every claim about this operation is
proved for an arbitrary value of it. -/
def apply_learning_curve (m : CostModel) (cumulative_production_volume : ℚ)
    (factor : ℚ) : CostModel :=
  if cumulative_production_volume ≤ m.current_production_volume then m
  else
    let c := CAPEX_COMPONENT_KEYS.foldl (learnStep m.snapshot factor) m.costs
    { m with
      costs := recalcTotalCapex c
      current_production_volume := cumulative_production_volume }

/-- `CostModel.adjust_costs_based_on_supply_chain` (lines 286-360).  The
material-availability and market-concentration percentages computed from the
associated `SupplyChainModel` are abstracted as their sum
`total_adjustment_factor`; the absent-supply-chain-model early return is the
`total_adjustment_factor ≤ 0` no-op case.  When `'module_usd_per_kw'` is
absent the method returns without change; otherwise, for a positive total
adjustment, the module cost is multiplied by `1 + total_adjustment_factor`
through `update_cost_component`. -/
def adjust_costs_based_on_supply_chain (m : CostModel)
    (total_adjustment_factor : ℚ) : CostModel :=
  match m.costs.module with
  | none => m
  | some original_module_cost =>
    if 0 < total_adjustment_factor then
      m.update_cost_component CostKey.module
        (original_module_cost * (1 + total_adjustment_factor))
    else m

end CostModel

/-- A Python float that may be `float('inf')`. -/
inductive ExtQ
  | fin (q : ℚ)
  | inf
deriving DecidableEq

namespace CostModel

/-- The tail of `calculate_lcoe` (lines 136-148) once the CRF is known:
annualized CAPEX, annual generation, the zero-generation guard, and the final
LCOE formula. -/
def lcoeFromCrf (capex opex crf capacity_factor fuel_cost_per_mwh : ℚ) : ExtQ :=
  if 8760 * capacity_factor / 1000 = 0 then ExtQ.inf
  else
    ExtQ.fin ((capex * crf + opex +
        fuel_cost_per_mwh * (8760 * capacity_factor / 1000)) /
      (8760 * capacity_factor / 1000))

/-- `CostModel.calculate_lcoe` (lines 106-148).  The returned value is a bare
float (no error channel in the source).  `Except.error` models an uncaught
Python `ZeroDivisionError`: for `discount_rate > 0` the CRF denominator
`(1+r)^n - 1` is divided by without a guard, and it is zero when `n = 0`. -/
def calculate_lcoe (m : CostModel) (capacity_factor discount_rate : ℚ)
    (economic_lifetime_years : ℤ) (annual_opex_per_kw : Option ℚ := none)
    (fuel_cost_per_mwh : ℚ := 0) : Except String ExtQ :=
  if m.costs.capex = 0 then Except.ok ExtQ.inf
  else if 0 < discount_rate then
    if (1 + discount_rate) ^ economic_lifetime_years - 1 = 0 then
      Except.error "ZeroDivisionError"
    else
      Except.ok (lcoeFromCrf m.costs.capex (annual_opex_per_kw.getD (m.costs.opex.getD 0))
        (discount_rate * (1 + discount_rate) ^ economic_lifetime_years /
          ((1 + discount_rate) ^ economic_lifetime_years - 1))
        capacity_factor fuel_cost_per_mwh)
  else if 0 < economic_lifetime_years then
    Except.ok (lcoeFromCrf m.costs.capex (annual_opex_per_kw.getD (m.costs.opex.getD 0))
      (1 / (economic_lifetime_years : ℚ)) capacity_factor fuel_cost_per_mwh)
  else Except.ok ExtQ.inf

/-- The dictionary returned by `calculate_lcoe_for_evolving_solar_tech`
(restricted to the fields the claims concern). -/
structure EvolvingLcoeResult where
  lcoe_usd_per_mwh : ExtQ
  error : Option String
  capex_usd_per_kw : Option ℚ
  opex_per_kw_year : Option ℚ
  efficiency : Option ℚ
deriving DecidableEq

/-- The tail of `calculate_lcoe_for_evolving_solar_tech` (lines 237-276) once
the CRF is known: the zero-generation branch returns an infinite error-bearing
result when costs are positive, the explicit value 0 when costs and generation
are both absent, and otherwise the rounded LCOE. -/
def evolvingLcoeFromCrf (capex opex eff crf capacity_factor : ℚ) : EvolvingLcoeResult :=
  if 8760 * capacity_factor / 1000 = 0 then
    if 0 < capex * crf + opex then
      { lcoe_usd_per_mwh := ExtQ.inf
        error := some "Annual generation is zero. LCOE is infinite."
        capex_usd_per_kw := some capex
        opex_per_kw_year := some opex
        efficiency := some eff }
    else
      { lcoe_usd_per_mwh := ExtQ.fin 0
        error := none
        capex_usd_per_kw := some (pyRound 2 capex)
        opex_per_kw_year := some (pyRound 2 opex)
        efficiency := some (pyRound 4 eff) }
  else
    { lcoe_usd_per_mwh :=
        ExtQ.fin (pyRound 2 ((capex * crf + opex) / (8760 * capacity_factor / 1000)))
      error := none
      capex_usd_per_kw := some (pyRound 2 capex)
      opex_per_kw_year := some (pyRound 2 opex)
      efficiency := some (pyRound 4 eff) }

/-- The numeric core of `calculate_lcoe_for_evolving_solar_tech`
(lines 188-276), after a successful technology lookup: the robust CRF
calculation with its three explicit error-bearing early returns (no exception
can escape; the `OverflowError` handler is unreachable over exact rationals). -/
def evolvingLcoeCore (capex opex eff capacity_factor discount_rate : ℚ)
    (economic_lifetime_years : ℤ) : EvolvingLcoeResult :=
  if economic_lifetime_years ≤ 0 then
    if 0 < capex then
      { lcoe_usd_per_mwh := ExtQ.inf
        error := some "Lifetime is not positive. LCOE is infinite if CAPEX > 0."
        capex_usd_per_kw := some capex
        opex_per_kw_year := some opex
        efficiency := some eff }
    else evolvingLcoeFromCrf capex opex eff 0 capacity_factor
  else if discount_rate = 0 then
    evolvingLcoeFromCrf capex opex eff (1 / (economic_lifetime_years : ℚ)) capacity_factor
  else
    if (1 + discount_rate) ^ economic_lifetime_years.toNat - 1 = 0 then
      if 0 < capex then
        { lcoe_usd_per_mwh := ExtQ.inf
          error := some "CRF denominator is zero."
          capex_usd_per_kw := some capex
          opex_per_kw_year := some opex
          efficiency := some eff }
      else evolvingLcoeFromCrf capex opex eff 0 capacity_factor
    else
      evolvingLcoeFromCrf capex opex eff
        (discount_rate * (1 + discount_rate) ^ economic_lifetime_years.toNat /
          ((1 + discount_rate) ^ economic_lifetime_years.toNat - 1))
        capacity_factor

/-- `CostModel.calculate_lcoe_for_evolving_solar_tech` (lines 150-276): fetches
evolving CAPEX and efficiency from the `SolarTechModel`, takes OPEX from this
cost model's `current_costs`, and never raises. -/
def calculate_lcoe_for_evolving_solar_tech (m : CostModel)
    (solar_tech_model : SolarTechModel) (technology_name : String) (year : ℤ)
    (capacity_factor discount_rate : ℚ)
    (economic_lifetime_years : ℤ) : EvolvingLcoeResult :=
  match solar_tech_model.get_technology_details technology_name year with
  | none =>
    { lcoe_usd_per_mwh := ExtQ.inf
      error := some "Technology not found."
      capex_usd_per_kw := none
      opex_per_kw_year := none
      efficiency := none }
  | some tech_params =>
    evolvingLcoeCore tech_params.capex_usd_per_kw (m.costs.opex.getD 0)
      tech_params.efficiency capacity_factor discount_rate economic_lifetime_years

end CostModel

/-- The C2 invariant: the stored total CAPEX equals the sum of the four
component entries. -/
def capexInvariant (m : CostModel) : Prop := m.costs.capex = m.costs.capexSum

/-- Example initial costs dictionary (the scenario of spec §"Scenario":
module 200, bos 150, inverter 100, installation 150, opex 20).  The `capex`
entry passed in is 0; `__init__` overwrites it with the component sum. -/
def exCosts : Costs :=
  { module := some 200, bos := some 150, inverter := some 100,
    installation := some 150, opex := some 20, capex := 0 }

/-- Example cost model built from `exCosts`. -/
def exModel : CostModel := CostModel.init "UtilityPV" exCosts (1/5) 100

/-- Cost model with all-zero costs, for the C1 counterexample. -/
def zeroModel : CostModel :=
  CostModel.init "ZeroTech"
    { module := some 0, bos := some 0, inverter := some 0,
      installation := some 0, opex := some 0, capex := 0 } (1/10) 1

/-! ## Grid integration: `GridModel`
(src/modules/grid_integration/grid_model.py) -/

/-- `'BATTERY' in tech_name.upper()`-style Python substring test, on the
character lists of the strings. -/
def strContains (s pat : String) : Bool :=
  (List.range (s.data.length + 1)).any fun i => pat.data.isPrefixOf (s.data.drop i)

/-- `tech_name.upper()`. -/
def strUpper (s : String) : String := ⟨s.data.map Char.toUpper⟩

/-- The solar-PV name heuristic of `GridModel.add_new_capacity`
(grid_model.py lines 129-138). -/
def isSolarPvName (tech_name : String) : Bool :=
  (strContains (strUpper tech_name) "PV" ||
   strContains (strUpper tech_name) "SOLAR" ||
   strContains (strUpper tech_name) "SILICON" ||
   strContains (strUpper tech_name) "TOPCON" ||
   strContains (strUpper tech_name) "PEROVSKITE") &&
  !(strContains (strUpper tech_name) "BATTERY")

/-- Ordered dictionary update: overwrite the entry when present, append
otherwise (Python dict assignment). -/
def updateAssoc (l : List (String × ℚ)) (k : String) (v : ℚ) : List (String × ℚ) :=
  match l with
  | [] => [(k, v)]
  | (k', v') :: t => if k' = k then (k, v) :: t else (k', v') :: updateAssoc t k v

/-- One region's entry of `GridModel.regional_data` after `__init__` merged the
defaults (grid_model.py lines 27-50). -/
structure RegionData where
  existing_capacity_mw : ℚ
  current_load_mw : ℚ
  max_solar_penetration_pct : ℚ := 1/2
  base_interconnection_cost_usd_per_mw : ℚ := 100000
  transmission_constraint_factor : ℚ := 1
  avg_transmission_cost_usd_per_mw_km : ℚ := 2000
  avg_terrain_factor : ℚ := 1
  current_solar_mw : ℚ := 0
  capacities_mw_by_tech : List (String × ℚ) := []
deriving DecidableEq

/-- `GridModel`: per-region data keyed by region name in insertion order. -/
structure GridModel where
  regional_data : List (String × RegionData)
deriving DecidableEq

namespace GridModel

/-- `region_name in self.regional_data` /
`self.regional_data[region_name]` combined lookup. -/
def find? (g : GridModel) (region_name : String) : Option RegionData :=
  g.regional_data.lookup region_name

/-- In-place update of one region's data (other regions untouched). -/
def updateRegion (g : GridModel) (region_name : String)
    (f : RegionData → RegionData) : GridModel :=
  ⟨g.regional_data.map fun p => if p.1 = region_name then (p.1, f p.2) else p⟩

/-- `GridModel.get_max_solar_penetration_mw` (lines 72-81): unknown region →
warning and 0.0. -/
def get_max_solar_penetration_mw (g : GridModel) (region_name : String) : ℚ :=
  match g.find? region_name with
  | none => 0
  | some d => d.existing_capacity_mw * d.max_solar_penetration_pct

/-- `GridModel.get_current_solar_mw` (lines 83-88): unknown region →
warning and 0.0. -/
def get_current_solar_mw (g : GridModel) (region_name : String) : ℚ :=
  match g.find? region_name with
  | none => 0
  | some d => d.current_solar_mw

/-- `GridModel.add_solar_capacity` (lines 90-97): unknown region → warning and
no state change. -/
def add_solar_capacity (g : GridModel) (region_name : String)
    (new_capacity_mw : ℚ) : GridModel :=
  match g.find? region_name with
  | none => g
  | some _ =>
    g.updateRegion region_name fun d =>
      { d with current_solar_mw := d.current_solar_mw + new_capacity_mw }

/-- One `tech_name, capacity_mw` iteration of the inner loop of
`GridModel.add_new_capacity` (lines 120-142): non-positive investments are
skipped; the tech-specific capacity is accumulated; the solar-name heuristic
also accumulates `current_solar_mw`. -/
def addTechCapacity (d : RegionData) (tech_name : String) (capacity_mw : ℚ) :
    RegionData :=
  if capacity_mw ≤ 0 then d
  else
    let newCaps := updateAssoc d.capacities_mw_by_tech tech_name
      ((d.capacities_mw_by_tech.lookup tech_name).getD 0 + capacity_mw)
    let d1 := { d with capacities_mw_by_tech := newCaps }
    if isSolarPvName tech_name then
      { d1 with current_solar_mw := d1.current_solar_mw + capacity_mw }
    else d1

/-- One region's entry of the `new_capacity_details` loop of
`GridModel.add_new_capacity` (lines 112-142): unknown region → warning and no
state change. -/
def processRegionInvestments (g : GridModel) (region_name : String)
    (tech_investments : List (String × ℚ)) : GridModel :=
  match g.find? region_name with
  | none => g
  | some _ =>
    g.updateRegion region_name fun d =>
      tech_investments.foldl (fun d p => addTechCapacity d p.1 p.2) d

/-- `GridModel.add_new_capacity` (lines 99-143). -/
def add_new_capacity (g : GridModel)
    (new_capacity_details : List (String × List (String × ℚ))) : GridModel :=
  new_capacity_details.foldl (fun g p => g.processRegionInvestments p.1 p.2) g

/-- `GridModel.get_current_capacity_by_tech` (lines 145-150): unknown region →
warning and an empty mapping. -/
def get_current_capacity_by_tech (g : GridModel) (region_name : String) :
    List (String × ℚ) :=
  match g.find? region_name with
  | none => []
  | some d => d.capacities_mw_by_tech

/-- `GridModel.calculate_interconnection_costs` (lines 152-162): unknown
region → warning and `float('inf')` ("a high cost"). -/
def calculate_interconnection_costs (g : GridModel) (region_name : String)
    (new_capacity_mw : ℚ) (distance_km : ℚ := 10) : ExtQ :=
  match g.find? region_name with
  | none => ExtQ.inf
  | some d =>
    ExtQ.fin ((d.base_interconnection_cost_usd_per_mw * new_capacity_mw +
        d.avg_transmission_cost_usd_per_mw_km * new_capacity_mw * distance_km *
          d.avg_terrain_factor) * d.transmission_constraint_factor)

/-- `GridModel.check_grid_constraints` (lines 164-176): unknown region →
warning and `False`; otherwise `False` exactly when the addition would exceed
the maximum solar penetration. -/
def check_grid_constraints (g : GridModel) (region_name : String)
    (additional_capacity_mw : ℚ) : Bool :=
  match g.find? region_name with
  | none => false
  | some _ =>
    if g.get_max_solar_penetration_mw region_name <
        g.get_current_solar_mw region_name + additional_capacity_mw then false
    else true

end GridModel

/-- The empty grid model (no valid regional data), for the C4 counterexample. -/
def emptyGrid : GridModel := ⟨[]⟩

/-- The `'USA'` region of the module's example usage (grid_model.py
lines 181-187): existing capacity 500000, load 450000, penetration ceiling 0.6,
base interconnection cost 120000. -/
def usaRegion : RegionData :=
  { existing_capacity_mw := 500000, current_load_mw := 450000,
    max_solar_penetration_pct := 6/10,
    base_interconnection_cost_usd_per_mw := 120000 }

/-- A grid model holding only the `'USA'` region. -/
def usaGrid : GridModel := ⟨[("USA", usaRegion)]⟩

/-! ## Economic framework: `MarketSimulator.simulate_dispatch_for_year`
(src/modules/economic_framework/market_model.py, lines 59-180) -/

/-- `HOURS_PER_YEAR` (market_model.py line 91). -/
def HOURS_PER_YEAR : ℚ := 8760

/-- `DEFAULT_PV_CAPACITY_FACTOR` (line 92). -/
def DEFAULT_PV_CAPACITY_FACTOR : ℚ := 1/5

/-- `DEFAULT_BATTERY_EFFECTIVE_CF` (line 93). -/
def DEFAULT_BATTERY_EFFECTIVE_CF : ℚ := 1/10

/-- The per-technology filter and potential-generation computation of the
dispatchable-technology loop (lines 122-157): skip non-positive capacity,
unknown technologies, technologies not commercially available in the year, and
non-positive potentials; battery-named technologies use the battery effective
capacity factor, all others the PV capacity factor. -/
def potentialGeneration (stm : SolarTechModel) (year : ℤ) (tech_name : String)
    (capacity_mw : ℚ) : Option ℚ :=
  if capacity_mw ≤ 0 then none
  else
    match stm.get_technology_details tech_name year with
    | none => none
    | some td =>
      if td.is_commercially_available = false then none
      else
        let pot :=
          if strContains (strUpper tech_name) "BATTERY" then
            capacity_mw * DEFAULT_BATTERY_EFFECTIVE_CF * HOURS_PER_YEAR
          else capacity_mw * DEFAULT_PV_CAPACITY_FACTOR * HOURS_PER_YEAR
        if 0 < pot then some pot else none

/-- The list `dispatchable_techs` in region order (lines 122-161).  The
subsequent sort by marginal cost is the identity permutation: every marginal
cost is the constant 0 and Python's sort is stable. -/
def dispatchableTechs (stm : SolarTechModel) (year : ℤ)
    (installed_capacities : List (String × ℚ)) : List (String × ℚ) :=
  installed_capacities.filterMap fun p =>
    (potentialGeneration stm year p.1 p.2).map fun pot => (p.1, pot)

/-- The dispatch loop (lines 163-173): starting from `acc` MWh already
dispatched, each technology contributes `min(potential, demand − acc)` when
that is positive, and the loop breaks once `acc` reaches the demand.  Returns
the recorded per-technology dispatch and the final dispatched total. -/
def dispatchGo (demand : ℚ) : ℚ → List (String × ℚ) → List (String × ℚ) × ℚ
  | acc, [] => ([], acc)
  | acc, (n, pot) :: ts =>
    if demand ≤ acc then ([], acc)
    else if 0 < min pot (demand - acc) then
      ((n, min pot (demand - acc)) ::
          (dispatchGo demand (acc + min pot (demand - acc)) ts).1,
        (dispatchGo demand (acc + min pot (demand - acc)) ts).2)
    else dispatchGo demand acc ts

/-- One region's record of the `market_outcomes` dictionary (lines 97-102). -/
structure RegionDispatchOutcome where
  total_generation_mwh : List (String × ℚ)
  annual_demand_mwh : ℚ
  total_dispatched_generation_mwh : ℚ
  unmet_demand_mwh : ℚ
deriving DecidableEq

/-- The all-zero record a region keeps when its grid data is missing
(lines 97-107). -/
def emptyOutcome : RegionDispatchOutcome :=
  { total_generation_mwh := [], annual_demand_mwh := 0,
    total_dispatched_generation_mwh := 0, unmet_demand_mwh := 0 }

/-- One region's pass of `MarketSimulator.simulate_dispatch_for_year` given
the region's grid data (lines 109-177): a region with no installed capacity
records its whole annual demand as unmet; otherwise the dispatch loop runs
over the dispatchable technologies and `unmet = max(0, demand − dispatched)`. -/
def simulateDispatchRegionData (stm : SolarTechModel) (year : ℤ)
    (d : RegionData) : RegionDispatchOutcome :=
  if d.capacities_mw_by_tech = [] then
    { total_generation_mwh := []
      annual_demand_mwh := d.current_load_mw * HOURS_PER_YEAR
      total_dispatched_generation_mwh := 0
      unmet_demand_mwh := d.current_load_mw * HOURS_PER_YEAR }
  else
    { total_generation_mwh :=
        (dispatchGo (d.current_load_mw * HOURS_PER_YEAR) 0
          (dispatchableTechs stm year d.capacities_mw_by_tech)).1
      annual_demand_mwh := d.current_load_mw * HOURS_PER_YEAR
      total_dispatched_generation_mwh :=
        (dispatchGo (d.current_load_mw * HOURS_PER_YEAR) 0
          (dispatchableTechs stm year d.capacities_mw_by_tech)).2
      unmet_demand_mwh :=
        max 0 (d.current_load_mw * HOURS_PER_YEAR -
          (dispatchGo (d.current_load_mw * HOURS_PER_YEAR) 0
            (dispatchableTechs stm year d.capacities_mw_by_tech)).2) }

/-- One region's pass of `MarketSimulator.simulate_dispatch_for_year`
(lines 95-177): missing grid data leaves the zero record. -/
def simulateDispatchRegion (stm : SolarTechModel) (g : GridModel) (year : ℤ)
    (region_name : String) : RegionDispatchOutcome :=
  match g.find? region_name with
  | none => emptyOutcome
  | some d => simulateDispatchRegionData stm year d

/-- `MarketSimulator.simulate_dispatch_for_year` over a region list. -/
def simulate_dispatch_for_year (stm : SolarTechModel) (g : GridModel) (year : ℤ)
    (regions : List String) : List (String × RegionDispatchOutcome) :=
  regions.map fun r => (r, simulateDispatchRegion stm g year r)

/-- The `'USA'` region with one installed technology, for the C5 witness. -/
def dispatchRegionData : RegionData :=
  { existing_capacity_mw := 500000, current_load_mw := 450000,
    max_solar_penetration_pct := 6/10,
    capacities_mw_by_tech := [("TOPConPV", 1000)] }

/-- Grid model for the C5 witness. -/
def dispatchGrid : GridModel := ⟨[("USA", dispatchRegionData)]⟩

/-- Solar-tech portfolio for the C5 witness. -/
def stmEx : SolarTechModel := ⟨[("TOPConPV", c3exB)]⟩

/-! ## Decision making: the simple-payback block of
`InvestmentDecisionModel.evaluate_project_attractiveness`
(src/modules/decision_making/investment_decision_model.py, lines 315-337) -/

/-- `initial_investment_usd = capex_usd_per_kw * project_capacity_mw * 1000`
(line 315). -/
def initial_investment_usd (capex_usd_per_kw project_capacity_mw : ℚ) : ℚ :=
  capex_usd_per_kw * project_capacity_mw * 1000

/-- The three possible shapes of `simple_payback_period_years`: a float, or one
of the two string sentinels. -/
inductive PaybackResult
  | years (q : ℚ)
  | notApplicableZeroInvestment
  | notApplicableNonPositiveCashFlow
deriving DecidableEq

/-- The simple-payback block (lines 324-333), exactly in source order: the
simultaneous zero-capacity/zero-investment case first, then zero investment,
then non-positive cash flow, then the quotient. -/
def simplePaybackPeriod (project_capacity_mw initial_investment
    annual_net_cash_flow : ℚ) : PaybackResult :=
  if project_capacity_mw = 0 ∧ initial_investment = 0 then PaybackResult.years 0
  else if initial_investment = 0 then PaybackResult.notApplicableZeroInvestment
  else if annual_net_cash_flow ≤ 0 then PaybackResult.notApplicableNonPositiveCashFlow
  else PaybackResult.years (initial_investment / annual_net_cash_flow)

lemma roundHalfEven_le (x : ℚ) : (roundHalfEven x : ℚ) ≤ x + 1/2 := by
  unfold roundHalfEven
  have hf : (⌊x⌋ : ℚ) ≤ x := Int.floor_le x
  by_cases h1 : x - (⌊x⌋ : ℚ) < 1/2
  · simp only [h1, if_true]
    linarith
  · simp only [h1, if_false]
    by_cases h2 : 1/2 < x - (⌊x⌋ : ℚ)
    · simp only [h2, if_true]
      push_cast
      linarith
    · simp only [h2, if_false]
      have heq : x - (⌊x⌋ : ℚ) = 1/2 := le_antisymm (not_lt.mp h2) (not_lt.mp h1)
      by_cases h3 : ⌊x⌋ % 2 = 0
      · simp only [h3, if_true]
        linarith
      · simp only [h3, if_false]
        push_cast
        linarith

lemma le_roundHalfEven (x : ℚ) : x - 1/2 ≤ (roundHalfEven x : ℚ) := by
  unfold roundHalfEven
  have hf : x < (⌊x⌋ : ℚ) + 1 := Int.lt_floor_add_one x
  by_cases h1 : x - (⌊x⌋ : ℚ) < 1/2
  · simp only [h1, if_true]
    linarith
  · simp only [h1, if_false]
    by_cases h2 : 1/2 < x - (⌊x⌋ : ℚ)
    · simp only [h2, if_true]
      push_cast
      linarith
    · simp only [h2, if_false]
      have heq : x - (⌊x⌋ : ℚ) = 1/2 := le_antisymm (not_lt.mp h2) (not_lt.mp h1)
      by_cases h3 : ⌊x⌋ % 2 = 0
      · simp only [h3, if_true]
        linarith
      · simp only [h3, if_false]
        push_cast
        linarith

lemma roundHalfEven_mono {x y : ℚ} (h : x ≤ y) :
    roundHalfEven x ≤ roundHalfEven y := by
  by_contra hc
  push_neg at hc
  have h1 : (roundHalfEven y : ℚ) + 1 ≤ (roundHalfEven x : ℚ) := by
    exact_mod_cast hc
  have h2 := roundHalfEven_le x
  have h3 := le_roundHalfEven y
  have hyx : y ≤ x := by linarith
  have hxy : x = y := le_antisymm h hyx
  subst hxy
  exact absurd hc (lt_irrefl _)

lemma roundHalfEven_nonneg {x : ℚ} (h : 0 ≤ x) : 0 ≤ roundHalfEven x := by
  unfold roundHalfEven
  have hf : 0 ≤ ⌊x⌋ := Int.floor_nonneg.mpr h
  by_cases h1 : x - (⌊x⌋ : ℚ) < 1/2
  · simp only [h1, if_true]; exact hf
  · simp only [h1, if_false]
    by_cases h2 : 1/2 < x - (⌊x⌋ : ℚ)
    · simp only [h2, if_true]; omega
    · simp only [h2, if_false]
      by_cases h3 : ⌊x⌋ % 2 = 0
      · simp only [h3, if_true]; exact hf
      · simp only [h3, if_false]; omega

lemma pyRound_mono (d : ℕ) {x y : ℚ} (h : x ≤ y) : pyRound d x ≤ pyRound d y := by
  unfold pyRound
  have hp : (0:ℚ) < 10 ^ d := by positivity
  have hm : x * 10 ^ d ≤ y * 10 ^ d := by
    exact mul_le_mul_of_nonneg_right h (le_of_lt hp)
  have := roundHalfEven_mono hm
  have hcast : (roundHalfEven (x * 10 ^ d) : ℚ) ≤ (roundHalfEven (y * 10 ^ d) : ℚ) := by
    exact_mod_cast this
  exact (div_le_div_iff_of_pos_right hp).mpr hcast

lemma pyRound_nonneg (d : ℕ) {x : ℚ} (h : 0 ≤ x) : 0 ≤ pyRound d x := by
  unfold pyRound
  have hp : (0:ℚ) < 10 ^ d := by positivity
  have hm : 0 ≤ x * 10 ^ d := by positivity
  have := roundHalfEven_nonneg hm
  have hcast : (0:ℚ) ≤ (roundHalfEven (x * 10 ^ d) : ℚ) := by exact_mod_cast this
  positivity

lemma SolarTechnology.annual_efficiency_improvement_nonneg (t : SolarTechnology) :
    0 ≤ t.annual_efficiency_improvement := by
  unfold annual_efficiency_improvement
  split_ifs with h1 h2
  · exact le_refl 0
  · exact le_refl 0
  · push_neg at h1 h2
    obtain ⟨h2a, h2b⟩ := h2
    apply div_nonneg
    · linarith
    · have : (0:ℤ) ≤ 2035 - t.start_year := by omega
      exact_mod_cast this

lemma SolarTechnology.rawEfficiency_le_proj (t : SolarTechnology)
    (hbp : t.base_efficiency ≤ t.projected_efficiency_2035) (year : ℤ) :
    t.rawEfficiency year ≤ t.projected_efficiency_2035 := by
  unfold rawEfficiency
  split_ifs
  · exact hbp
  · exact le_refl _
  · exact min_le_right _ _

lemma SolarTechnology.rawEfficiency_mono (t : SolarTechnology)
    (hbp : t.base_efficiency ≤ t.projected_efficiency_2035)
    {y1 y2 : ℤ} (h12 : y1 ≤ y2) (h2 : y2 < 2035) :
    t.rawEfficiency y1 ≤ t.rawEfficiency y2 := by
  have himp := t.annual_efficiency_improvement_nonneg
  unfold rawEfficiency
  by_cases ha : y2 < t.start_year
  · have hb : y1 < t.start_year := lt_of_le_of_lt h12 ha
    rw [if_pos hb, if_pos ha]
  · rw [if_neg ha, if_neg (by omega : ¬ (2035:ℤ) ≤ y2)]
    by_cases hb : y1 < t.start_year
    · rw [if_pos hb]
      refine le_min ?_ hbp
      have hk : (0:ℚ) ≤ ((y2 - t.start_year : ℤ) : ℚ) := by
        have : (0:ℤ) ≤ y2 - t.start_year := by omega
        exact_mod_cast this
      nlinarith
    · rw [if_neg hb, if_neg (by omega : ¬ (2035:ℤ) ≤ y1)]
      refine min_le_min ?_ le_rfl
      have hk : ((y1 - t.start_year : ℤ) : ℚ) ≤ ((y2 - t.start_year : ℤ) : ℚ) := by
        have : y1 - t.start_year ≤ y2 - t.start_year := by omega
        exact_mod_cast this
      nlinarith

lemma SolarTechnology.rawCapex_nonneg (t : SolarTechnology)
    (hb : 0 ≤ t.base_capex_usd_per_kw) (year : ℤ) :
    0 ≤ t.rawCapex year := by
  unfold rawCapex
  split_ifs
  · exact hb
  · exact le_max_right _ _

lemma SolarTechnology.rawCapex_le_base (t : SolarTechnology)
    (hb : 0 ≤ t.base_capex_usd_per_kw)
    (hr0 : 0 ≤ t.annual_capex_reduction_rate)
    (hr1 : t.annual_capex_reduction_rate ≤ 1) (year : ℤ) :
    t.rawCapex year ≤ t.base_capex_usd_per_kw := by
  unfold rawCapex
  split_ifs
  · exact le_refl _
  · refine max_le ?_ hb
    have hq0 : (0:ℚ) ≤ 1 - t.annual_capex_reduction_rate := by linarith
    have hq1 : (1 - t.annual_capex_reduction_rate) ≤ 1 := by linarith
    have hpow : (1 - t.annual_capex_reduction_rate) ^ (year - t.start_year).toNat ≤ 1 :=
      pow_le_one₀ hq0 hq1
    nlinarith [pow_nonneg hq0 (year - t.start_year).toNat]

lemma SolarTechnology.rawCapex_antitone (t : SolarTechnology)
    (hb : 0 ≤ t.base_capex_usd_per_kw)
    (hr0 : 0 ≤ t.annual_capex_reduction_rate)
    (hr1 : t.annual_capex_reduction_rate ≤ 1)
    {y1 y2 : ℤ} (h12 : y1 ≤ y2) :
    t.rawCapex y2 ≤ t.rawCapex y1 := by
  have hq0 : (0:ℚ) ≤ 1 - t.annual_capex_reduction_rate := by linarith
  have hq1 : (1 - t.annual_capex_reduction_rate) ≤ 1 := by linarith
  by_cases hb1 : y1 < t.start_year
  · have := t.rawCapex_le_base hb hr0 hr1 y2
    unfold rawCapex
    rw [if_pos hb1]
    unfold rawCapex at this
    exact this
  · have hb2 : ¬ y2 < t.start_year := by omega
    unfold rawCapex
    rw [if_neg hb1, if_neg hb2]
    refine max_le_max ?_ le_rfl
    have hk : (y1 - t.start_year).toNat ≤ (y2 - t.start_year).toNat := by omega
    have hpow : (1 - t.annual_capex_reduction_rate) ^ (y2 - t.start_year).toNat ≤
        (1 - t.annual_capex_reduction_rate) ^ (y1 - t.start_year).toNat :=
      pow_le_pow_of_le_one hq0 hq1 hk
    nlinarith

lemma int_one_toNat : ((1:ℤ)).toNat = 1 := rfl

lemma int_two_toNat : ((2:ℤ)).toNat = 2 := rfl

/-- C3 is false as stated, on two concrete technologies with `start_year ≤ 2035`:
(i) with `projected_efficiency_2035 < base_efficiency` the reported efficiency
drops from 0.3 at year 2029 to 0.2 at year 2031 (monotonicity and the bound both
fail); (ii) even with `base_efficiency ≤ projected_efficiency_2035`, rounding to
4 digits reports 0.1236 at year 2036, strictly above the projected 0.12355. -/
theorem claim3_counterexample :
    (c3exA.start_year ≤ 2035 ∧ (2029:ℤ) ≤ 2031 ∧ (2031:ℤ) < 2035 ∧
      ¬ ((c3exA.get_params_for_year 2029).efficiency ≤
          (c3exA.get_params_for_year 2031).efficiency)) ∧
    (c3exB.start_year ≤ 2035 ∧
      c3exB.base_efficiency ≤ c3exB.projected_efficiency_2035 ∧
      ¬ ((c3exB.get_params_for_year 2036).efficiency ≤
          c3exB.projected_efficiency_2035)) := by
  constructor
  · refine ⟨by norm_num [c3exA], by norm_num, by norm_num, ?_⟩
    norm_num [c3exA, SolarTechnology.get_params_for_year, SolarTechnology.rawEfficiency,
      SolarTechnology.annual_efficiency_improvement, pyRound, roundHalfEven, min_def]
  · refine ⟨by norm_num [c3exB], by norm_num [c3exB], ?_⟩
    norm_num [c3exB, SolarTechnology.get_params_for_year, SolarTechnology.rawEfficiency,
      pyRound, roundHalfEven]

/-- C3 (amended): for every technology whose base efficiency does not exceed its
projected 2035 efficiency and whose start year is at most 2035, the efficiency
reported by `get_params_for_year` never exceeds the 4-digit rounding of
`projected_efficiency_2035`, and is non-decreasing in the year while the year is
below 2035. -/
theorem claim3_efficiency_monotone_bounded (t : SolarTechnology)
    (hbp : t.base_efficiency ≤ t.projected_efficiency_2035)
    (_hs : t.start_year ≤ 2035) :
    (∀ y : ℤ, (t.get_params_for_year y).efficiency ≤
        pyRound 4 t.projected_efficiency_2035) ∧
    (∀ y1 y2 : ℤ, y1 ≤ y2 → y2 < 2035 →
      (t.get_params_for_year y1).efficiency ≤ (t.get_params_for_year y2).efficiency) := by
  constructor
  · intro y
    exact pyRound_mono 4 (t.rawEfficiency_le_proj hbp y)
  · intro y1 y2 h12 h2
    exact pyRound_mono 4 (t.rawEfficiency_mono hbp h12 h2)

/-- Witness for C3 (amended), on a concrete technology. -/
theorem claim3_witness :
    (c3exB.get_params_for_year 2024).efficiency ≤
      (c3exB.get_params_for_year 2030).efficiency :=
  (claim3_efficiency_monotone_bounded c3exB (by norm_num [c3exB])
    (by norm_num [c3exB])).2 2024 2030 (by norm_num) (by norm_num)

/-- C9 is false as stated, on two concrete technologies: (i) with reduction rate
2 the reported CAPEX is 0 in 2021 and back to 1000 in 2022, so it is not
non-increasing; (ii) with a negative base CAPEX the reported CAPEX before the
start year is negative. -/
theorem claim9_counterexample :
    (¬ ((c9exA.get_params_for_year 2022).capex_usd_per_kw ≤
        (c9exA.get_params_for_year 2021).capex_usd_per_kw)) ∧
    (¬ ((0:ℚ) ≤ (c9exB.get_params_for_year 2019).capex_usd_per_kw)) := by
  constructor
  · norm_num [c9exA, SolarTechnology.get_params_for_year, SolarTechnology.rawCapex,
      pyRound, roundHalfEven, max_def, int_one_toNat, int_two_toNat]
  · norm_num [c9exB, SolarTechnology.get_params_for_year, SolarTechnology.rawCapex,
      pyRound, roundHalfEven]

/-- C9 (amended): for every technology with non-negative base CAPEX and an
annual CAPEX reduction rate in [0, 1], the CAPEX reported by
`get_params_for_year` is non-increasing in the year and never negative. -/
theorem claim9_capex_antitone_nonneg (t : SolarTechnology)
    (hb : 0 ≤ t.base_capex_usd_per_kw)
    (hr0 : 0 ≤ t.annual_capex_reduction_rate)
    (hr1 : t.annual_capex_reduction_rate ≤ 1) :
    (∀ y1 y2 : ℤ, y1 ≤ y2 →
      (t.get_params_for_year y2).capex_usd_per_kw ≤
        (t.get_params_for_year y1).capex_usd_per_kw) ∧
    (∀ y : ℤ, 0 ≤ (t.get_params_for_year y).capex_usd_per_kw) := by
  constructor
  · intro y1 y2 h12
    exact pyRound_mono 2 (t.rawCapex_antitone hb hr0 hr1 h12)
  · intro y
    exact pyRound_nonneg 2 (t.rawCapex_nonneg hb y)

/-- Witness for C9 (amended), on a concrete technology. -/
theorem claim9_witness :
    (c3exB.get_params_for_year 2030).capex_usd_per_kw ≤
        (c3exB.get_params_for_year 2024).capex_usd_per_kw ∧
      (0:ℚ) ≤ (c3exB.get_params_for_year 2030).capex_usd_per_kw :=
  ⟨(claim9_capex_antitone_nonneg c3exB (by norm_num [c3exB]) (by norm_num [c3exB])
      (by norm_num [c3exB])).1 2024 2030 (by norm_num),
    (claim9_capex_antitone_nonneg c3exB (by norm_num [c3exB]) (by norm_num [c3exB])
      (by norm_num [c3exB])).2 2030⟩

lemma Costs.get?_set_self (c : Costs) (k : CostKey) (v : ℚ) : (c.set k v).get? k = some v := by
  cases k <;> rfl

lemma Costs.get?_set_ne (c : Costs) {k k' : CostKey} (h : k ≠ k') (v : ℚ) :
    (c.set k v).get? k' = c.get? k' := by
  cases k <;> cases k' <;> first | rfl | exact absurd rfl h

lemma capexInv_init (name : String) (initial : Costs) (lr vol : ℚ) :
    capexInvariant (CostModel.init name initial lr vol) := rfl

lemma capexInv_update (m : CostModel) (k : CostKey) (v : ℚ)
    (h : capexInvariant m) (hk : k ≠ CostKey.capex) :
    capexInvariant (m.update_cost_component k v) := by
  unfold CostModel.update_cost_component
  split_ifs with h1 h2
  · exact rfl
  · cases k with
    | module => exact absurd (by decide) h2
    | bos => exact absurd (by decide) h2
    | inverter => exact absurd (by decide) h2
    | installation => exact absurd (by decide) h2
    | opex => simpa [capexInvariant, Costs.set, Costs.capexSum] using h
    | capex => exact absurd rfl hk
  · exact h

lemma capexInv_learning (m : CostModel) (v f : ℚ) (h : capexInvariant m) :
    capexInvariant (m.apply_learning_curve v f) := by
  unfold CostModel.apply_learning_curve
  split_ifs with h1
  · exact h
  · exact rfl

lemma capexInv_adjust (m : CostModel) (adj : ℚ) (h : capexInvariant m) :
    capexInvariant (m.adjust_costs_based_on_supply_chain adj) := by
  unfold CostModel.adjust_costs_based_on_supply_chain
  rcases hm : m.costs.module with _ | orig
  · exact h
  · split_ifs with h1
    · exact capexInv_update m CostKey.module _ h (by decide)
    · exact h

/-- C2 is false as stated: `update_cost_component` called with the component
name `'capex_per_kw'` (which is present in `current_costs` after construction
but is not one of the four CAPEX component keys) sets the total directly to 999
without recomputation, breaking `capex_per_kw = sum(components)` (= 600). -/
theorem claim2_counterexample :
    ¬ ((exModel.update_cost_component CostKey.capex 999).costs.capex =
        (exModel.update_cost_component CostKey.capex 999).costs.capexSum) := by
  have hmem : CostKey.capex ∉ CAPEX_COMPONENT_KEYS := by decide
  have hsome : (exModel.costs.get? CostKey.capex).isSome = true := rfl
  unfold CostModel.update_cost_component
  rw [if_pos hsome, if_neg hmem]
  norm_num [exModel, exCosts, CostModel.init, CostModel.recalcTotalCapex,
    Costs.set, Costs.get?, Costs.capexSum]

/-- C2 (amended): `capex_per_kw = sum(components)` holds after construction and
is preserved by `update_cost_component` for every component name other than
`'capex_per_kw'` itself, by `apply_learning_curve`, and by
`adjust_costs_based_on_supply_chain`. -/
theorem claim2_capex_sum_invariant :
    (∀ (name : String) (initial : Costs) (lr vol : ℚ),
      capexInvariant (CostModel.init name initial lr vol)) ∧
    (∀ (m : CostModel) (k : CostKey) (v : ℚ), capexInvariant m →
      k ≠ CostKey.capex → capexInvariant (m.update_cost_component k v)) ∧
    (∀ (m : CostModel) (v f : ℚ), capexInvariant m →
      capexInvariant (m.apply_learning_curve v f)) ∧
    (∀ (m : CostModel) (adj : ℚ), capexInvariant m →
      capexInvariant (m.adjust_costs_based_on_supply_chain adj)) :=
  ⟨capexInv_init, capexInv_update, capexInv_learning, capexInv_adjust⟩

/-- Witness for C2 (amended): the invariant after a concrete construction and a
concrete component update. -/
theorem claim2_witness :
    capexInvariant ((CostModel.init "UtilityPV" exCosts (1/5) 100).update_cost_component
      CostKey.module 50) :=
  claim2_capex_sum_invariant.2.1 _ CostKey.module 50
    (claim2_capex_sum_invariant.1 "UtilityPV" exCosts (1/5) 100) (by decide)

/-- C7 (confirmed): `apply_learning_curve` with a cumulative production volume
that is not strictly greater than the current one is a no-op — the entire model
state, in particular every `current_costs` entry and the current production
volume, is unchanged. -/
theorem claim7_learning_curve_noop (m : CostModel) (v factor : ℚ)
    (h : v ≤ m.current_production_volume) :
    m.apply_learning_curve v factor = m := by
  unfold CostModel.apply_learning_curve
  exact if_pos h

/-- Witness for C7: a concrete no-op call at exactly the current volume. -/
theorem claim7_witness : exModel.apply_learning_curve 100 (1/2) = exModel :=
  claim7_learning_curve_noop exModel 100 (1/2)
    (by norm_num [exModel, CostModel.init])

lemma pyRound_zero (d : ℕ) : pyRound d 0 = 0 := by
  norm_num [pyRound, roundHalfEven]

lemma evolvingFromCrf_zero_cost (eff crf cf : ℚ) :
    (CostModel.evolvingLcoeFromCrf 0 0 eff crf cf).lcoe_usd_per_mwh = ExtQ.fin 0 ∧
    (CostModel.evolvingLcoeFromCrf 0 0 eff crf cf).error = none := by
  unfold CostModel.evolvingLcoeFromCrf
  split_ifs with h1 h2
  · exfalso
    rw [zero_mul, zero_add] at h2
    exact lt_irrefl 0 h2
  · exact ⟨rfl, rfl⟩
  · constructor
    · show ExtQ.fin (pyRound 2 ((0 * crf + 0) / (8760 * cf / 1000))) = ExtQ.fin 0
      rw [zero_mul, zero_add, zero_div, pyRound_zero]
    · rfl

lemma evolvingFromCrf_gen_zero_inf (capex opex eff crf : ℚ)
    (hpos : 0 < capex * crf + opex) :
    (CostModel.evolvingLcoeFromCrf capex opex eff crf 0).lcoe_usd_per_mwh = ExtQ.inf ∧
    (CostModel.evolvingLcoeFromCrf capex opex eff crf 0).error ≠ none := by
  unfold CostModel.evolvingLcoeFromCrf
  rw [if_pos (by norm_num), if_pos hpos]
  exact ⟨rfl, by simp⟩

/-- C1 is false as stated: on a cost model with `capex = 0` and `opex = 0` and
a positive capacity factor, `calculate_lcoe` returns `float('inf')`, not 0 —
the zero-cost/zero-LCOE asymmetry holds only for
`calculate_lcoe_for_evolving_solar_tech`. -/
theorem claim1_counterexample :
    zeroModel.costs.capex = 0 ∧ zeroModel.costs.opex = some 0 ∧
    zeroModel.calculate_lcoe 1 (1/20) 25 none 0 = Except.ok ExtQ.inf ∧
    ExtQ.inf ≠ ExtQ.fin 0 := by
  have hcapex : zeroModel.costs.capex = 0 := by
    norm_num [zeroModel, CostModel.init, CostModel.recalcTotalCapex, Costs.capexSum]
  refine ⟨hcapex, rfl, ?_, by simp⟩
  unfold CostModel.calculate_lcoe
  rw [if_pos hcapex]

/-- C1 (amended): the degenerate-case guarantees hold for
`calculate_lcoe_for_evolving_solar_tech` (its numeric core after the
technology lookup, which is total — no exception can escape): zero CAPEX and
zero OPEX give LCOE 0 with no error for any capacity factor; a zero capacity
factor with positive CAPEX, non-negative OPEX and non-negative discount rate
gives `+inf` with a non-null error; a non-positive lifetime with positive CAPEX
gives `+inf` with a non-null error; a zero CRF denominator with positive CAPEX
gives `+inf` with a non-null error.  `calculate_lcoe`, by contrast, returns a
bare `float('inf')` (no error value) whenever its CAPEX is zero, even with zero
OPEX. -/
theorem claim1_lcoe_degenerate_cases :
    (∀ (eff cf dr : ℚ) (n : ℤ),
      (CostModel.evolvingLcoeCore 0 0 eff cf dr n).lcoe_usd_per_mwh = ExtQ.fin 0 ∧
      (CostModel.evolvingLcoeCore 0 0 eff cf dr n).error = none) ∧
    (∀ (capex opex eff dr : ℚ) (n : ℤ), 0 < capex → 0 ≤ opex → 0 ≤ dr →
      (CostModel.evolvingLcoeCore capex opex eff 0 dr n).lcoe_usd_per_mwh = ExtQ.inf ∧
      (CostModel.evolvingLcoeCore capex opex eff 0 dr n).error ≠ none) ∧
    (∀ (capex opex eff cf dr : ℚ) (n : ℤ), n ≤ 0 → 0 < capex →
      (CostModel.evolvingLcoeCore capex opex eff cf dr n).lcoe_usd_per_mwh = ExtQ.inf ∧
      (CostModel.evolvingLcoeCore capex opex eff cf dr n).error ≠ none) ∧
    (∀ (capex opex eff cf dr : ℚ) (n : ℤ), 0 < n → dr ≠ 0 →
      (1 + dr) ^ n.toNat - 1 = 0 → 0 < capex →
      (CostModel.evolvingLcoeCore capex opex eff cf dr n).lcoe_usd_per_mwh = ExtQ.inf ∧
      (CostModel.evolvingLcoeCore capex opex eff cf dr n).error ≠ none) ∧
    (∀ (m : CostModel) (cf dr : ℚ) (n : ℤ) (aopex : Option ℚ) (fuel : ℚ),
      m.costs.capex = 0 →
      m.calculate_lcoe cf dr n aopex fuel = Except.ok ExtQ.inf) := by
  refine ⟨?_, ?_, ?_, ?_, ?_⟩
  · intro eff cf dr n
    unfold CostModel.evolvingLcoeCore
    split_ifs with h1 h2 h3 h4 h5
    · exact absurd h2 (lt_irrefl 0)
    · exact evolvingFromCrf_zero_cost eff 0 cf
    · exact evolvingFromCrf_zero_cost eff _ cf
    · exact absurd h5 (lt_irrefl 0)
    · exact evolvingFromCrf_zero_cost eff 0 cf
    · exact evolvingFromCrf_zero_cost eff _ cf
  · intro capex opex eff dr n hcapex hopex hdr
    unfold CostModel.evolvingLcoeCore
    by_cases h1 : n ≤ 0
    · rw [if_pos h1, if_pos hcapex]
      exact ⟨rfl, by simp⟩
    · rw [if_neg h1]
      by_cases h2 : dr = 0
      · -- discount rate 0, lifetime > 0: CRF = 1/n > 0
        rw [if_pos h2]
        apply evolvingFromCrf_gen_zero_inf
        have hn : (0:ℚ) < (n : ℚ) := by exact_mod_cast (by omega : (0:ℤ) < n)
        have hcrf : 0 < 1 / (n:ℚ) := by positivity
        have := mul_pos hcapex hcrf
        linarith
      · rw [if_neg h2]
        by_cases h3 : (1 + dr) ^ n.toNat - 1 = 0
        · rw [if_pos h3, if_pos hcapex]
          exact ⟨rfl, by simp⟩
        · -- discount rate > 0 (nonzero and non-negative), lifetime > 0
          rw [if_neg h3]
          apply evolvingFromCrf_gen_zero_inf
          have hdrpos : 0 < dr := lt_of_le_of_ne hdr (Ne.symm h2)
          have hn0 : n.toNat ≠ 0 := by omega
          have hp : 1 < (1 + dr) ^ n.toNat := one_lt_pow₀ (by linarith) hn0
          have hcrf : 0 < dr * (1 + dr) ^ n.toNat / ((1 + dr) ^ n.toNat - 1) := by
            apply div_pos
            · exact mul_pos hdrpos (by linarith)
            · linarith
          have := mul_pos hcapex hcrf
          linarith
  · intro capex opex eff cf dr n hn hcapex
    unfold CostModel.evolvingLcoeCore
    rw [if_pos hn, if_pos hcapex]
    exact ⟨rfl, by simp⟩
  · intro capex opex eff cf dr n hn hdr hden hcapex
    unfold CostModel.evolvingLcoeCore
    rw [if_neg (by omega : ¬ n ≤ 0), if_neg hdr, if_pos hden, if_pos hcapex]
    exact ⟨rfl, by simp⟩
  · intro m cf dr n aopex fuel h
    unfold CostModel.calculate_lcoe
    rw [if_pos h]

/-- Witness for C1 (amended): concrete instances of the zero-cost case, the
zero-capacity-factor case, and the zero-lifetime case. -/
theorem claim1_witness :
    ((CostModel.evolvingLcoeCore 0 0 (1/4) (1/5) (1/20) 25).lcoe_usd_per_mwh =
        ExtQ.fin 0) ∧
    ((CostModel.evolvingLcoeCore 900 18 (1/4) 0 (1/20) 25).lcoe_usd_per_mwh =
        ExtQ.inf) ∧
    ((CostModel.evolvingLcoeCore 900 18 (1/4) (1/5) (1/20) 0).lcoe_usd_per_mwh =
        ExtQ.inf) :=
  ⟨(claim1_lcoe_degenerate_cases.1 (1/4) (1/5) (1/20) 25).1,
    (claim1_lcoe_degenerate_cases.2.1 900 18 (1/4) (1/20) 25 (by norm_num)
      (by norm_num) (by norm_num)).1,
    (claim1_lcoe_degenerate_cases.2.2.1 900 18 (1/4) (1/5) (1/20) 0 (by norm_num)
      (by norm_num)).1⟩

lemma get?_recalc (c : Costs) {k : CostKey} (h : k ≠ CostKey.capex) :
    (CostModel.recalcTotalCapex c).get? k = c.get? k := by
  cases k <;> first | rfl | exact absurd rfl h

lemma learnStep_get_ne (snap : Costs) (f : ℚ) (c : Costs) {k k' : CostKey} (h : k ≠ k') :
    (CostModel.learnStep snap f c k).get? k' = c.get? k' := by
  cases hs : snap.get? k with
  | none => simp [CostModel.learnStep, hs]
  | some s =>
    cases hc : c.get? k with
    | none => simp [CostModel.learnStep, hs, hc]
    | some cv => simp [CostModel.learnStep, hs, hc, Costs.get?_set_ne c h]

lemma learnStep_get_self (snap : Costs) (f : ℚ) (c : Costs) (k : CostKey) (s : ℚ)
    (hs : snap.get? k = some s) (hc : (c.get? k).isSome) :
    (CostModel.learnStep snap f c k).get? k = some (s * f) := by
  obtain ⟨cv, hcv⟩ := Option.isSome_iff_exists.mp hc
  simp [CostModel.learnStep, hs, hcv, Costs.get?_set_self]

/-- After a successful `apply_learning_curve`, every CAPEX component that is
present in both the initial snapshot and the current costs equals its snapshot
value times the learning factor — independent of its current value. -/
lemma learning_sets_from_snapshot (m : CostModel) (v f : ℚ)
    (hv : m.current_production_volume < v)
    (k : CostKey) (hk : k ∈ CAPEX_COMPONENT_KEYS) (s : ℚ)
    (hs : m.snapshot.get? k = some s) (hc : (m.costs.get? k).isSome) :
    (m.apply_learning_curve v f).costs.get? k = some (s * f) := by
  unfold CostModel.apply_learning_curve
  rw [if_neg (not_le.mpr hv)]
  have hmem : k = CostKey.module ∨ k = CostKey.bos ∨ k = CostKey.inverter ∨
      k = CostKey.installation := by
    simpa [CAPEX_COMPONENT_KEYS] using hk
  rcases hmem with rfl | rfl | rfl | rfl
  · rw [get?_recalc _ (by decide)]
    simp only [CAPEX_COMPONENT_KEYS, List.foldl_cons, List.foldl_nil]
    rw [learnStep_get_ne _ f _ (by decide), learnStep_get_ne _ f _ (by decide),
      learnStep_get_ne _ f _ (by decide)]
    exact learnStep_get_self _ f _ _ s hs hc
  · rw [get?_recalc _ (by decide)]
    simp only [CAPEX_COMPONENT_KEYS, List.foldl_cons, List.foldl_nil]
    rw [learnStep_get_ne _ f _ (by decide), learnStep_get_ne _ f _ (by decide)]
    apply learnStep_get_self _ f _ _ s hs
    rw [learnStep_get_ne _ f _ (by decide)]
    exact hc
  · rw [get?_recalc _ (by decide)]
    simp only [CAPEX_COMPONENT_KEYS, List.foldl_cons, List.foldl_nil]
    rw [learnStep_get_ne _ f _ (by decide)]
    apply learnStep_get_self _ f _ _ s hs
    rw [learnStep_get_ne _ f _ (by decide), learnStep_get_ne _ f _ (by decide)]
    exact hc
  · rw [get?_recalc _ (by decide)]
    simp only [CAPEX_COMPONENT_KEYS, List.foldl_cons, List.foldl_nil]
    apply learnStep_get_self _ f _ _ s hs
    rw [learnStep_get_ne _ f _ (by decide), learnStep_get_ne _ f _ (by decide),
      learnStep_get_ne _ f _ (by decide)]
    exact hc

lemma adjust_snapshot_eq (m : CostModel) (adj : ℚ) :
    (m.adjust_costs_based_on_supply_chain adj).snapshot = m.snapshot := by
  unfold CostModel.adjust_costs_based_on_supply_chain
  cases hm : m.costs.module with
  | none => rfl
  | some orig =>
    split_ifs with h1
    · unfold CostModel.update_cost_component
      split_ifs <;> rfl
    · rfl

lemma adjust_volume_eq (m : CostModel) (adj : ℚ) :
    (m.adjust_costs_based_on_supply_chain adj).current_production_volume =
      m.current_production_volume := by
  unfold CostModel.adjust_costs_based_on_supply_chain
  cases hm : m.costs.module with
  | none => rfl
  | some orig =>
    split_ifs with h1
    · unfold CostModel.update_cost_component
      split_ifs <;> rfl
    · rfl

lemma adjust_get_isSome (m : CostModel) (adj : ℚ) (k : CostKey)
    (hc : (m.costs.get? k).isSome) :
    ((m.adjust_costs_based_on_supply_chain adj).costs.get? k).isSome := by
  unfold CostModel.adjust_costs_based_on_supply_chain
  cases hm : m.costs.module with
  | none => exact hc
  | some orig =>
    split_ifs with h1
    · unfold CostModel.update_cost_component
      split_ifs with hp hmem
      · by_cases hkc : k = CostKey.capex
        · subst hkc; rfl
        · rw [get?_recalc _ hkc]
          by_cases hkm : CostKey.module = k
          · rw [← hkm, Costs.get?_set_self]; rfl
          · rw [Costs.get?_set_ne _ hkm]; exact hc
      · exact absurd (by decide) hmem
      · exact hc
    · exact hc

/-- C10 (confirmed): a successful `apply_learning_curve` sets every CAPEX
component (present in snapshot and current costs) to
`initial snapshot cost × factor`, where `factor` stands for
`(new_volume / initial_volume) ** (ln(1 − learning_rate)/ln 2)` and depends
only on the new cumulative volume and the constructor parameters; consequently
the result is unchanged by an intervening supply-chain surcharge, which is
discarded. -/
theorem claim10_learning_resets_to_snapshot :
    (∀ (m : CostModel) (v f : ℚ), m.current_production_volume < v →
      ∀ k ∈ CAPEX_COMPONENT_KEYS, ∀ s : ℚ, m.snapshot.get? k = some s →
        (m.costs.get? k).isSome →
        (m.apply_learning_curve v f).costs.get? k = some (s * f)) ∧
    (∀ (m : CostModel) (adj v f : ℚ), m.current_production_volume < v →
      ∀ k ∈ CAPEX_COMPONENT_KEYS, ∀ s : ℚ, m.snapshot.get? k = some s →
        (m.costs.get? k).isSome →
        ((m.adjust_costs_based_on_supply_chain adj).apply_learning_curve v f).costs.get? k
          = (m.apply_learning_curve v f).costs.get? k) := by
  constructor
  · intro m v f hv k hk s hs hc
    exact learning_sets_from_snapshot m v f hv k hk s hs hc
  · intro m adj v f hv k hk s hs hc
    have h1 := learning_sets_from_snapshot m v f hv k hk s hs hc
    have h2 := learning_sets_from_snapshot (m.adjust_costs_based_on_supply_chain adj) v f
      (by rw [adjust_volume_eq]; exact hv) k hk s
      (by rw [adjust_snapshot_eq]; exact hs) (adjust_get_isSome m adj k hc)
    rw [h1, h2]

/-- Witness for C10: a concrete learning-curve application, with and without an
intervening supply-chain surcharge. -/
theorem claim10_witness :
    ((exModel.apply_learning_curve 200 (4/5)).costs.get? CostKey.module =
        some (200 * (4/5))) ∧
    (((exModel.adjust_costs_based_on_supply_chain (1/10)).apply_learning_curve
          200 (4/5)).costs.get? CostKey.module =
        (exModel.apply_learning_curve 200 (4/5)).costs.get? CostKey.module) :=
  ⟨claim10_learning_resets_to_snapshot.1 exModel 200 (4/5)
      (by norm_num [exModel, CostModel.init]) CostKey.module (by decide) 200 rfl rfl,
    claim10_learning_resets_to_snapshot.2 exModel (1/10) 200 (4/5)
      (by norm_num [exModel, CostModel.init]) CostKey.module (by decide) 200 rfl rfl⟩

/-- C4 is false as stated: for an unknown region,
`calculate_interconnection_costs` returns `float('inf')` — deliberately a high
sentinel cost — which is not one of the claimed safe defaults (zero, false, or
an empty mapping). -/
theorem claim4_counterexample :
    emptyGrid.find? "Atlantis" = none ∧
    emptyGrid.calculate_interconnection_costs "Atlantis" 100 10 = ExtQ.inf ∧
    ExtQ.inf ≠ ExtQ.fin 0 :=
  ⟨rfl, rfl, by simp⟩

/-- C4 (amended): every `GridModel` operation invoked with an unknown region
name returns without raising: the penetration limit and current-solar reads
return 0, the mutators leave the model unchanged, the capacity-by-tech read
returns an empty mapping, the constraint check returns false, and
`calculate_interconnection_costs` returns `float('inf')` (a sentinel high
cost, not zero).  (The logged warning is an I/O side effect outside this
embedding.) -/
theorem claim4_unknown_region_defaults (g : GridModel) (region : String)
    (h : g.find? region = none) :
    g.get_max_solar_penetration_mw region = 0 ∧
    g.get_current_solar_mw region = 0 ∧
    (∀ mw : ℚ, g.add_solar_capacity region mw = g) ∧
    (∀ techs : List (String × ℚ), g.processRegionInvestments region techs = g) ∧
    g.get_current_capacity_by_tech region = [] ∧
    (∀ mw : ℚ, g.check_grid_constraints region mw = false) ∧
    (∀ mw dist : ℚ, g.calculate_interconnection_costs region mw dist = ExtQ.inf) := by
  refine ⟨?_, ?_, ?_, ?_, ?_, ?_, ?_⟩
  · unfold GridModel.get_max_solar_penetration_mw
    rw [h]
  · unfold GridModel.get_current_solar_mw
    rw [h]
  · intro mw
    unfold GridModel.add_solar_capacity
    rw [h]
  · intro techs
    unfold GridModel.processRegionInvestments
    rw [h]
  · unfold GridModel.get_current_capacity_by_tech
    rw [h]
  · intro mw
    unfold GridModel.check_grid_constraints
    rw [h]
  · intro mw dist
    unfold GridModel.calculate_interconnection_costs
    rw [h]

/-- Witness for C4 (amended): concrete unknown-region calls. -/
theorem claim4_witness :
    usaGrid.check_grid_constraints "Mars" 50 = false ∧
    usaGrid.get_max_solar_penetration_mw "Mars" = 0 :=
  ⟨(claim4_unknown_region_defaults usaGrid "Mars" rfl).2.2.2.2.2.1 50,
    (claim4_unknown_region_defaults usaGrid "Mars" rfl).1⟩

/-- C6 (confirmed): for a region present in the model, `check_grid_constraints`
returns false exactly when `current_solar + x` exceeds
`existing_capacity × penetration ceiling`, and true otherwise. -/
theorem claim6_check_grid_constraints (g : GridModel) (region : String)
    (d : RegionData) (x : ℚ) (hfind : g.find? region = some d) (_hx : 0 ≤ x) :
    g.check_grid_constraints region x = false ↔
      d.existing_capacity_mw * d.max_solar_penetration_pct <
        d.current_solar_mw + x := by
  unfold GridModel.check_grid_constraints GridModel.get_max_solar_penetration_mw
    GridModel.get_current_solar_mw
  rw [hfind]
  by_cases hc : d.existing_capacity_mw * d.max_solar_penetration_pct <
      d.current_solar_mw + x
  · rw [if_pos hc]
    simp [hc]
  · rw [if_neg hc]
    simp [hc]

/-- Witness for C6: the spec's scenario on the `'USA'` region
(existing 500000, ceiling 0.6, so the maximum is 300000): adding exactly
300000 MW is permitted, adding 300000.1 MW is rejected. -/
theorem claim6_witness :
    usaGrid.check_grid_constraints "USA" 300000 = true ∧
    usaGrid.check_grid_constraints "USA" (3000001/10) = false := by
  constructor
  · have h := claim6_check_grid_constraints usaGrid "USA" usaRegion 300000 rfl
      (by norm_num)
    cases hb : usaGrid.check_grid_constraints "USA" 300000 with
    | true => rfl
    | false =>
      have hlt := h.mp hb
      norm_num [usaRegion] at hlt
  · exact (claim6_check_grid_constraints usaGrid "USA" usaRegion (3000001/10) rfl
      (by norm_num)).mpr (by norm_num [usaRegion])

lemma dispatchGo_le (demand : ℚ) :
    ∀ (ts : List (String × ℚ)) (acc : ℚ), acc ≤ demand →
      (dispatchGo demand acc ts).2 ≤ demand := by
  intro ts
  induction ts with
  | nil => intro acc h; exact h
  | cons p ts ih =>
    intro acc h
    obtain ⟨n, pot⟩ := p
    by_cases h1 : demand ≤ acc
    · simp only [dispatchGo, if_pos h1]
      exact h
    · simp only [dispatchGo, if_neg h1]
      by_cases h2 : 0 < min pot (demand - acc)
      · rw [if_pos h2]
        apply ih
        have hm : min pot (demand - acc) ≤ demand - acc := min_le_right _ _
        linarith
      · rw [if_neg h2]
        exact ih acc h

lemma dispatchGo_total (demand : ℚ) :
    ∀ (ts : List (String × ℚ)) (acc : ℚ),
      (dispatchGo demand acc ts).2 =
        acc + ((dispatchGo demand acc ts).1.map Prod.snd).sum := by
  intro ts
  induction ts with
  | nil => intro acc; simp [dispatchGo]
  | cons p ts ih =>
    intro acc
    obtain ⟨n, pot⟩ := p
    by_cases h1 : demand ≤ acc
    · simp [dispatchGo, if_pos h1]
    · by_cases h2 : 0 < min pot (demand - acc)
      · simp only [dispatchGo, if_neg h1, if_pos h2, List.map_cons, List.sum_cons]
        rw [ih (acc + min pot (demand - acc))]
        ring
      · simp only [dispatchGo, if_neg h1, if_neg h2]
        exact ih acc

/-- Every entry `e` recorded by the dispatch loop, with `pre` the entries
recorded before it, equals `min(its potential, demand − (acc + Σ pre))`: the
second argument is exactly the demand still unmet when `e` is dispatched. -/
lemma dispatchGo_prefix (demand : ℚ) :
    ∀ (ts : List (String × ℚ)) (acc : ℚ) (pre suf : List (String × ℚ))
      (e : String × ℚ),
      (dispatchGo demand acc ts).1 = pre ++ e :: suf →
      ∃ pot : ℚ, (e.1, pot) ∈ ts ∧
        e.2 = min pot (demand - (acc + (pre.map Prod.snd).sum)) := by
  intro ts
  induction ts with
  | nil =>
    intro acc pre suf e h
    have h0 : ([] : List (String × ℚ)) = pre ++ e :: suf := h
    exact absurd (List.append_eq_nil.mp h0.symm).2 (List.cons_ne_nil _ _)
  | cons p ts ih =>
    intro acc pre suf e h
    obtain ⟨n, pot⟩ := p
    by_cases h1 : demand ≤ acc
    · have h0 : ([] : List (String × ℚ)) = pre ++ e :: suf := by
        have h' := h
        simp only [dispatchGo] at h'
        rw [if_pos h1] at h'
        exact h'
      exact absurd (List.append_eq_nil.mp h0.symm).2 (List.cons_ne_nil _ _)
    · by_cases h2 : 0 < min pot (demand - acc)
      · have h3 : (n, min pot (demand - acc)) ::
            (dispatchGo demand (acc + min pot (demand - acc)) ts).1 =
              pre ++ e :: suf := by
          have h' := h
          simp only [dispatchGo] at h'
          rw [if_neg h1, if_pos h2] at h'
          exact h'
        cases pre with
        | nil =>
          simp only [List.nil_append] at h3
          injection h3 with he hsuf
          subst he
          refine ⟨pot, List.mem_cons_self _ _, ?_⟩
          simp
        | cons q pre' =>
          simp only [List.cons_append] at h3
          injection h3 with hq hrest
          obtain ⟨pot', hmem, heqn⟩ :=
            ih (acc + min pot (demand - acc)) pre' suf e hrest
          refine ⟨pot', List.mem_cons_of_mem _ hmem, ?_⟩
          rw [heqn, ← hq]
          simp only [List.map_cons, List.sum_cons]
          congr 1
          ring
      · have h3 : (dispatchGo demand acc ts).1 = pre ++ e :: suf := by
          have h' := h
          simp only [dispatchGo] at h'
          rw [if_neg h1, if_neg h2] at h'
          exact h'
        obtain ⟨pot', hmem, heqn⟩ := ih acc pre suf e h3
        exact ⟨pot', List.mem_cons_of_mem _ hmem, heqn⟩

/-- C5 (confirmed): every region produces a record; with grid data present and
a non-negative load, the annual demand is `load × 8760`, the total dispatched
never exceeds it and equals the sum of the per-technology records,
`unmet = max(0, demand − dispatched)` is never negative, and every recorded
technology entry `e` — with `pre` the entries dispatched before it — contributes
exactly `min(its dispatchable potential, demand − Σ pre)`, the minimum of its
potential and the demand still unmet when it is dispatched. -/
theorem claim5_dispatch_properties (stm : SolarTechModel) (g : GridModel)
    (year : ℤ) (region : String) :
    (g.find? region = none →
      simulateDispatchRegion stm g year region = emptyOutcome) ∧
    (∀ d : RegionData, g.find? region = some d → 0 ≤ d.current_load_mw →
      (simulateDispatchRegion stm g year region).annual_demand_mwh =
        d.current_load_mw * HOURS_PER_YEAR ∧
      (simulateDispatchRegion stm g year region).total_dispatched_generation_mwh ≤
        (simulateDispatchRegion stm g year region).annual_demand_mwh ∧
      (simulateDispatchRegion stm g year region).unmet_demand_mwh =
        max 0 ((simulateDispatchRegion stm g year region).annual_demand_mwh -
          (simulateDispatchRegion stm g year region).total_dispatched_generation_mwh) ∧
      0 ≤ (simulateDispatchRegion stm g year region).unmet_demand_mwh ∧
      (simulateDispatchRegion stm g year region).total_dispatched_generation_mwh =
        (((simulateDispatchRegion stm g year region).total_generation_mwh).map
          Prod.snd).sum ∧
      (∀ (pre suf : List (String × ℚ)) (e : String × ℚ),
        (simulateDispatchRegion stm g year region).total_generation_mwh =
          pre ++ e :: suf →
        ∃ pot : ℚ,
          (e.1, pot) ∈ dispatchableTechs stm year d.capacities_mw_by_tech ∧
          e.2 = min pot
            ((simulateDispatchRegion stm g year region).annual_demand_mwh -
              (pre.map Prod.snd).sum))) := by
  constructor
  · intro h
    unfold simulateDispatchRegion
    rw [h]
  · intro d h hload
    have hdemand : (0:ℚ) ≤ d.current_load_mw * HOURS_PER_YEAR :=
      mul_nonneg hload (by norm_num [HOURS_PER_YEAR])
    have hsome : simulateDispatchRegion stm g year region =
        simulateDispatchRegionData stm year d := by
      unfold simulateDispatchRegion
      rw [h]
    rw [hsome]
    unfold simulateDispatchRegionData
    by_cases hcaps : d.capacities_mw_by_tech = []
    · rw [if_pos hcaps]
      refine ⟨rfl, hdemand, ?_, hdemand, by simp, ?_⟩
      · show d.current_load_mw * HOURS_PER_YEAR =
          max 0 (d.current_load_mw * HOURS_PER_YEAR - 0)
        rw [sub_zero, max_eq_right hdemand]
      · intro pre suf e hsplit
        have h0 : ([] : List (String × ℚ)) = pre ++ e :: suf := hsplit
        exact absurd (List.append_eq_nil.mp h0.symm).2 (List.cons_ne_nil _ _)
    · rw [if_neg hcaps]
      have hle := dispatchGo_le (d.current_load_mw * HOURS_PER_YEAR)
        (dispatchableTechs stm year d.capacities_mw_by_tech) 0 hdemand
      refine ⟨rfl, hle, rfl, le_max_left 0 _, ?_, ?_⟩
      · have := dispatchGo_total (d.current_load_mw * HOURS_PER_YEAR)
          (dispatchableTechs stm year d.capacities_mw_by_tech) 0
        simpa using this
      · intro pre suf e hsplit
        obtain ⟨pot, hmem, heqn⟩ :=
          dispatchGo_prefix (d.current_load_mw * HOURS_PER_YEAR)
            (dispatchableTechs stm year d.capacities_mw_by_tech) 0 pre suf e hsplit
        refine ⟨pot, hmem, ?_⟩
        rw [heqn, zero_add]

/-- Witness for C5: the dispatch record of a concrete region. -/
theorem claim5_witness :
    (simulateDispatchRegion stmEx dispatchGrid 2030 "USA").total_dispatched_generation_mwh ≤
      (simulateDispatchRegion stmEx dispatchGrid 2030 "USA").annual_demand_mwh ∧
    0 ≤ (simulateDispatchRegion stmEx dispatchGrid 2030 "USA").unmet_demand_mwh :=
  ⟨((claim5_dispatch_properties stmEx dispatchGrid 2030 "USA").2 dispatchRegionData
      rfl (by norm_num [dispatchRegionData])).2.1,
    ((claim5_dispatch_properties stmEx dispatchGrid 2030 "USA").2 dispatchRegionData
      rfl (by norm_num [dispatchRegionData])).2.2.2.1⟩

/-- C8 (confirmed): the simple payback period is 0 in the simultaneous
zero-capacity/zero-investment case, the zero-investment `'N/A'` sentinel for a
zero investment with non-zero capacity, the non-positive-cash-flow `'N/A'`
sentinel whenever the annual net cash flow is non-positive (and the investment
non-zero), and otherwise the investment divided by the cash flow. -/
theorem claim8_simple_payback_cases (cap inv cf : ℚ) :
    (cap = 0 → inv = 0 → simplePaybackPeriod cap inv cf = PaybackResult.years 0) ∧
    (inv = 0 → cap ≠ 0 →
      simplePaybackPeriod cap inv cf = PaybackResult.notApplicableZeroInvestment) ∧
    (inv ≠ 0 → cf ≤ 0 →
      simplePaybackPeriod cap inv cf =
        PaybackResult.notApplicableNonPositiveCashFlow) ∧
    (inv ≠ 0 → 0 < cf →
      simplePaybackPeriod cap inv cf = PaybackResult.years (inv / cf)) := by
  refine ⟨?_, ?_, ?_, ?_⟩
  · intro h1 h2
    unfold simplePaybackPeriod
    rw [if_pos ⟨h1, h2⟩]
  · intro h1 h2
    unfold simplePaybackPeriod
    rw [if_neg (fun hp => h2 hp.1), if_pos h1]
  · intro h1 h2
    unfold simplePaybackPeriod
    rw [if_neg (fun hp => h1 hp.2), if_neg h1, if_pos h2]
  · intro h1 h2
    unfold simplePaybackPeriod
    rw [if_neg (fun hp => h1 hp.2), if_neg h1, if_neg (not_le.mpr h2)]

/-- Witness for C8: concrete values for each branch. -/
theorem claim8_witness :
    simplePaybackPeriod 50 45000000 876000 =
      PaybackResult.years (45000000 / 876000) ∧
    simplePaybackPeriod 50 45000000 (-5) =
      PaybackResult.notApplicableNonPositiveCashFlow ∧
    simplePaybackPeriod 0 0 (-5) = PaybackResult.years 0 :=
  ⟨(claim8_simple_payback_cases 50 45000000 876000).2.2.2 (by norm_num) (by norm_num),
    (claim8_simple_payback_cases 50 45000000 (-5)).2.2.1 (by norm_num) (by norm_num),
    (claim8_simple_payback_cases 0 0 (-5)).1 rfl rfl⟩

end GSEF
